import Mathlib

/-!
# calico-upgrade: the `start` and `validate` commands

A shallow embedding of `calico_upgrade/pkg/commands/start.go` and
`calico_upgrade/pkg/commands/validate.go`.

A command is a Go function that prints, calls its collaborators and may end
the process with `os.Exit` or a run-time panic.  It is embedded as a value of
`Cmd Unit`: the ordered list of externally visible calls it made (`Event`)
together with the way it stopped (`Except Halt Unit`: a normal return, an
exit with a status code, or a panic).  The collaborators whose code is not in
the two files (docopt, the client loader, the migration engine, the constants
package) are the fields of `Env`, so that every theorem quantifies over all
of their possible answers.
-/

namespace migrate

/-- Modelled from the spec: the result codes of package `migrate`, whose
declaration is not among the source files.  Spec §6: "Result ∈ {OK, Fail,
FailNeedsRetry, FailNeedsAbort}"; the constructor names are the ones the
commands use (`migrate.ResultOK`, ...). -/
inductive Result where
  | ResultOK
  | ResultFail
  | ResultFailNeedsRetry
  | ResultFailNeedsAbort
  deriving DecidableEq, Repr

/-- Modelled from the spec: §3 LegacyResource, a record that carries its kind
tag and a field set from the legacy schema; the name is the identity a failed
outcome is bound to. -/
structure LegacyResource where
  kind : String
  name : String
  fields : List (String × String)
  deriving DecidableEq, Repr

/-- Modelled from the spec: §3 ModernResource, "carries kind, metadata (name,
namespace-like scoping), and a spec payload". -/
structure ModernResource where
  kind : String
  name : String
  scope : String
  spec : List (String × String)
  deriving DecidableEq, Repr

/-- Modelled from the spec: §3 ConversionOutcome, "one of {Converted(ModernResource),
Skipped(reason), Failed(error detail bound to the originating LegacyResource's
identity)}". -/
inductive ConversionOutcome where
  | Converted (m : ModernResource)
  | Skipped (reason : String)
  | Failed (kind : String) (name : String) (detail : String)
  deriving DecidableEq, Repr

/-- Whether an outcome is a `Failed` one. -/
def ConversionOutcome.isFailed : ConversionOutcome → Bool
  | .Failed _ _ _ => true
  | _ => false

/-- Modelled from the spec: the report type `*migrate.MigrationData` of the
commands (spec §3 MigrationReport), whose declaration is not among the source
files: "an ordered sequence of ConversionOutcome grouped by resource kind",
with the running error counter of §4.2. -/
structure MigrationData where
  sections : List (String × List ConversionOutcome)
  errors : Nat
  deriving DecidableEq, Repr

/-- Modelled from the spec: §4.2 "`HasErrors()` is O(1) via a running counter
maintained during `record`". -/
def MigrationData.HasErrors (d : MigrationData) : Bool :=
  d.errors != 0

/-- The report of a run that has recorded nothing yet. -/
def MigrationData.empty : MigrationData :=
  { sections := [], errors := 0 }

/-- Append an outcome to the section of its kind, keeping the encounter order
inside the section (spec §4.2); a kind seen for the first time opens a new
section at the end. -/
def addToSection (kind : String) (o : ConversionOutcome) :
    List (String × List ConversionOutcome) → List (String × List ConversionOutcome)
  | [] => [(kind, [o])]
  | (k, os) :: rest =>
    if k = kind then (k, os ++ [o]) :: rest else (k, os) :: addToSection kind o rest

/-- Modelled from the spec: §4.2 `record(outcome)`. -/
def MigrationData.record (d : MigrationData) (kind : String) (o : ConversionOutcome) :
    MigrationData :=
  { sections := addToSection kind o d.sections
    errors := if o.isFailed then d.errors + 1 else d.errors }

end migrate

namespace clients

/-- Modelled from the spec: the legacy (v1) client handle, seen through the
datastore access shim of §4.3: "`listAllLegacy() -> sequence of LegacyResource,
fails with AccessError`". -/
structure ClientV1 where
  listAllLegacy : Except String (List migrate.LegacyResource)

/-- Modelled from the spec: the modern (v3) client handle, seen through the
datastore access shim of §4.3: "`listAllModern() -> sequence of ModernResource
(identity only), fails with AccessError`". -/
structure ClientV3 where
  listAllModern : Except String (List migrate.ModernResource)

end clients

namespace migrate

/-- Modelled from the spec: `migrate.Validate` (spec §6 `RunValidation`), which
is not among the source files.  Spec §4.4: "1. Listing fails (datastore
unreachable) → terminal Fail, no report"; "2. Converting always completes
(never aborts mid-way); its sole output is the MigrationReport"; "3. If mode
is Validate: terminal state is OK if `!HasErrors()`, else Fail-with-report.
No pause/write ever occurs."  The resource converter of §4.1 is the argument
`convert`. -/
def Validate (convert : LegacyResource → ConversionOutcome)
    (_clientv3 : clients.ClientV3) (clientv1 : clients.ClientV1) :
    Option MigrationData × Result :=
  match clientv1.listAllLegacy with
  | .error _ => (none, .ResultFail)
  | .ok legacy =>
    let data := legacy.foldl (fun d r => d.record r.kind (convert r)) MigrationData.empty
    if data.HasErrors then (some data, .ResultFail) else (some data, .ResultOK)

end migrate

/-! ## The process model -/

/-- A value stored in the map docopt returns (a Go `interface{}`): docopt
yields strings, booleans, counts and string lists, and a missing key reads as
the nil interface. -/
inductive Value where
  | nil
  | str (s : String)
  | bool (b : Bool)
  | int (n : Int)
  | strs (l : List String)
  deriving DecidableEq, Repr

/-- The `map[string]interface{}` returned by `docopt.Parse`. -/
abbrev ArgMap := List (String × Value)

/-- Go map indexing `m[key]`: the nil interface when the key is missing. -/
def ArgMap.index (m : ArgMap) (key : String) : Value :=
  (m.lookup key).getD Value.nil

/-- An externally visible call made by a command, in program order. -/
inductive Event where
  | Printf (format : String) (args : List String)
  | Println (line : String)
  | printFinalMessage (format : String) (args : List String)
  | printAndOutputReport (output : String) (data : Option migrate.MigrationData)
  | ensureDirectory (output : String)
  | LoadClients (cfv3 : String) (cfv1 : String)
  | DisplayStatusMessages (b : Bool)
  | Migrate (ignoreV3Data : Bool)
  | Validate
  deriving DecidableEq, Repr

/-- The ways a Go process stops other than by returning from the command:
`os.Exit(code)`, or a run-time panic (the Go runtime prints the panic and ends
the process with a non-zero status). -/
inductive Halt where
  | Exit (code : Int)
  | Panic
  deriving DecidableEq, Repr

/-- A command run: the calls made so far and either the returned value or the
way the process stopped. -/
structure Cmd (α : Type) where
  trace : List Event
  result : Except Halt α

namespace Cmd

/-- Return a value without any visible call. -/
def ret {α : Type} (a : α) : Cmd α :=
  { trace := [], result := .ok a }

/-- Sequencing: a halted command runs nothing after it. -/
def seq {α β : Type} (x : Cmd α) (f : α → Cmd β) : Cmd β :=
  match x.result with
  | .error h => { trace := x.trace, result := .error h }
  | .ok a => { trace := x.trace ++ (f a).trace, result := (f a).result }

/-- One visible call that returns. -/
def emit (e : Event) : Cmd Unit :=
  { trace := [e], result := .ok () }

/-- A run-time panic. -/
def panic {α : Type} : Cmd α :=
  { trace := [], result := .error Halt.Panic }

end Cmd

instance : Monad Cmd where
  pure := Cmd.ret
  bind := Cmd.seq

namespace os

/-- Go `os.Exit(code)`: the process stops at once. -/
def Exit {α : Type} (code : Int) : Cmd α :=
  { trace := [], result := .error (Halt.Exit code) }

end os

namespace fmt

/-- Go `fmt.Printf(format, args...)`. -/
def Printf (format : String) (args : List String) : Cmd Unit :=
  Cmd.emit (Event.Printf format args)

/-- Go `fmt.Println(line)`. -/
def Println (line : String) : Cmd Unit :=
  Cmd.emit (Event.Println line)

end fmt

/-- Go type assertion `v.(string)`: panics unless the value is a string. -/
def Value.assertString : Value → Cmd String
  | .str s => pure s
  | _ => Cmd.panic

/-- Go type assertion `v.(bool)`: panics unless the value is a boolean. -/
def Value.assertBool : Value → Cmd Bool
  | .bool b => pure b
  | _ => Cmd.panic

namespace commands

/-- The constants of package `commands/constants` the two commands read; their
declarations are not among the source files, so they are arguments. -/
structure Constants where
  DatastoreIntro : String
  DefaultConfigPathV3 : String
  DefaultConfigPathV1 : String
  DefaultOutputDir : String
  ReportHelp : String
  Exiting : String

/-- The collaborators of the commands: the constants, `docopt.Parse(doc, args,
true, "", false, false)`, `clients.LoadClients`, `migrate.Migrate` and
`migrate.Validate`.  An error value is carried as its text. -/
structure Env where
  constants : Constants
  Parse : String → List String → Except String ArgMap
  LoadClients : String → String → Except String (clients.ClientV3 × clients.ClientV1)
  Migrate : clients.ClientV3 → clients.ClientV1 → Bool →
    Option migrate.MigrationData × migrate.Result
  Validate : clients.ClientV3 → clients.ClientV1 →
    Option migrate.MigrationData × migrate.Result

/-- The helper `printFinalMessage(format, args...)` of package `commands`. -/
def printFinalMessage (format : String) (args : List String) : Cmd Unit :=
  Cmd.emit (Event.printFinalMessage format args)

/-- Modelled from the spec: the helper `printAndOutputReport(output, data)` of
package `commands`, not among the source files.  Spec §6: the report
renderer/writer "writes one file per non-empty resource-kind section and
returns nothing (assumed infallible ...)": it is one visible call that
returns. -/
def printAndOutputReport (output : String) (data : Option migrate.MigrationData) :
    Cmd Unit :=
  Cmd.emit (Event.printAndOutputReport output data)

/-- Modelled from the spec: the helper `ensureDirectory(output)` of package
`commands`, not among the source files.  Spec §1 and §6 place directory
creation with the external collaborators and have the caller guarantee that
the directory exists: it is one visible call that returns. -/
def ensureDirectory (output : String) : Cmd Unit :=
  Cmd.emit (Event.ensureDirectory output)

/-- Go `data == nil || !data.HasErrors()` on a `*migrate.MigrationData`. -/
def nilOrNoErrors : Option migrate.MigrationData → Bool
  | none => true
  | some d => !d.HasErrors

/-- The usage text `doc` of `Start`. -/
def Start.doc (c : Constants) : String :=
  c.DatastoreIntro ++ "Usage:\n" ++
  "  calico-upgrade start\n" ++
  "      [--apiconfigv3=<V3_APICONFIG>]\n" ++
  "      [--apiconfigv1=<V1_APICONFIG>]\n" ++
  "      [--output-dir=<OUTPUTDIR>]\n" ++
  "      [--ignore-v3-data]\n" ++
  "\n" ++
  "Example:\n" ++
  "  calico-upgrade start --apiconfigv3=/path/to/v3/config --apiconfigv1=/path/to/v1/config\n" ++
  "\n" ++
  "Options:\n" ++
  "  -h --help                    Show this screen.\n" ++
  "  --apiconfigv3=<V3_APICONFIG> Path to the file containing connection\n" ++
  "                               configuration in YAML or JSON format for\n" ++
  "\t\t\t\t\t\t\t   the Calico v1 API.\n" ++
  "                               [default: " ++ c.DefaultConfigPathV3 ++ "]\n" ++
  "  --apiconfigv1=<V1_APICONFIG> Path to the file containing connection\n" ++
  "                               configuration in YAML or JSON format for\n" ++
  "\t\t\t\t\t\t\t   the Calico v3 API.\n" ++
  "                               [default: " ++ c.DefaultConfigPathV1 ++ "]\n" ++
  "  --output-dir=<OUTPUTDIR>     Directory in which the data migration reports\n" ++
  "                               are written to.\n" ++
  "                               [default: " ++ c.DefaultOutputDir ++ "]\n" ++
  "  --ignore-v3-data             Ignore any existing Calico data that is in the\n" ++
  "                               v3 format.  The migrated data will overwrite\n" ++
  "                               any common resources, and leave other resources\n" ++
  "                               unchanged.  If there is v3 data present, we\n" ++
  "                               recommend you remove all Calico data from the\n" ++
  "                               v3 datastore before upgrading, however, this\n" ++
  "                               option may be used if that is not possible, or\n" ++
  "                               if you know all of the data present will be\n" ++
  "                               updated by the upgrade.\n" ++
  "\n" ++
  "Description:\n"

/-- The format of the message both commands print when docopt rejects the
arguments. -/
def msgInvalidOption : String :=
  "Invalid option: 'calico-upgrade %s'. Use flag '--help' to read about a specific subcommand.\n"

/-- The final message of `Start` on `ResultOK`. -/
def Start.msgOK : String :=
  "Successfully migrated Calico v1 data to v3 format.\n" ++
  "Follow the upgrade remaining upgrade instructions to complete the upgrade."

/-- The final message of `Start` on a failure that is not due to conversion
errors. -/
def Start.msgFailPrevious : String :=
  "Failed to migrate Calico v1 data to v3 format.\n" ++
  "See previous messages for details."

/-- The final message of `Start` on a failure with conversion errors. -/
def Start.msgFailReports : String :=
  "Failed to migrate Calico v1 data to v3 format.\n" ++
  "See reports below for details of any conversion errors."

/-- The extra line of `Start` on `ResultFailNeedsRetry`. -/
def Start.hintRetry : String :=
  "\n\nPlease retry the command."

/-- The extra line of `Start` on `ResultFailNeedsAbort`. -/
def Start.hintAbort : String :=
  "\n\nPlease run the `calico-upgrade abort` command to ensure Calico networking is unpaused."

/-- The final messages a run printed, in order: the arguments of its
`printFinalMessage` calls. -/
def finalMessages (tr : List Event) : List (String × List String) :=
  tr.filterMap fun e =>
    match e with
    | .printFinalMessage format args => some (format, args)
    | _ => none

/-- The reports a run output, in order: the arguments of its
`printAndOutputReport` calls. -/
def reportsOutput (tr : List Event) : List (String × Option migrate.MigrationData) :=
  tr.filterMap fun e =>
    match e with
    | .printAndOutputReport output data => some (output, data)
    | _ => none

/-- The client loads a run made, in order: the arguments of its
`clients.LoadClients` calls. -/
def loadClientsCalls (tr : List Event) : List (String × String) :=
  tr.filterMap fun e =>
    match e with
    | .LoadClients cfv3 cfv1 => some (cfv3, cfv1)
    | _ => none

/-- The command `Start(args)` of start.go. -/
def Start (w : Env) (args : List String) : Cmd Unit := do
  let doc := Start.doc w.constants
  let parsedArgs ← match w.Parse doc args with
    | .error _ => do
      fmt.Printf msgInvalidOption [String.intercalate " " args]
      os.Exit 1
    | .ok m => pure m
  let cfv3 ← (parsedArgs.index "--apiconfigv3").assertString
  let cfv1 ← (parsedArgs.index "--apiconfigv1").assertString
  let ignoreV3Data ← (parsedArgs.index "--ignore-v3-data").assertBool
  let output ← (parsedArgs.index "--output-dir").assertString
  -- Ensure we are able to write the output report to the designated output directory.
  ensureDirectory output
  -- Obtain the v1 and v3 clients.
  Cmd.emit (Event.LoadClients cfv3 cfv1)
  let (clientv3, clientv1) ← match w.LoadClients cfv3 cfv1 with
    | .error err => do
      fmt.Printf "Failed to access the Calico API: %s\n" [err]
      fmt.Println w.constants.Exiting
      os.Exit 1
    | .ok cs => pure cs
  -- Ensure the migration code displays messages.
  Cmd.emit (Event.DisplayStatusMessages true)
  -- Perform the data migration.
  Cmd.emit (Event.Migrate ignoreV3Data)
  let (data, res) := w.Migrate clientv3 clientv1 ignoreV3Data
  if res = migrate.Result.ResultOK then do
    -- We migrated the data successfully.  Include a report.
    printFinalMessage Start.msgOK []
    printAndOutputReport output data
  else do
    if nilOrNoErrors data then
      -- We failed to migrate the data and it is not due to conversion errors.
      printFinalMessage Start.msgFailPrevious []
    else do
      -- We failed to migrate the data and it appears to be due to conversion errors.
      printFinalMessage Start.msgFailReports []
      printAndOutputReport output data
    -- If we need to retry or we still need to abort then notify the user.
    if res = migrate.Result.ResultFailNeedsRetry then
      fmt.Println Start.hintRetry
    else if res = migrate.Result.ResultFailNeedsAbort then
      fmt.Println Start.hintAbort
    os.Exit 1

/-- The usage text `doc` of `Validate`. -/
def Validate.doc (c : Constants) : String :=
  c.DatastoreIntro ++ "Usage:\n" ++
  "  calico-upgrade validate\n" ++
  "      [--apiconfigv3=<V3_APICONFIG>]\n" ++
  "      [--apiconfigv1=<V1_APICONFIG>]\n" ++
  "      [--output-dir=<OUTPUTDIR>]\n" ++
  "\n" ++
  "Example:\n" ++
  "  calico-upgrade validate --apiconfigv3=/path/to/v3/config --apiconfigv1=/path/to/v1/config\n" ++
  "\n" ++
  "Options:\n" ++
  "  -h --help                    Show this screen.\n" ++
  "  --apiconfigv3=<V3_APICONFIG> Path to the file containing connection\n" ++
  "                               configuration in YAML or JSON format for\n" ++
  "                               the Calico v1 API.\n" ++
  "                               [default: " ++ c.DefaultConfigPathV3 ++ "]\n" ++
  "  --apiconfigv1=<V1_APICONFIG> Path to the file containing connection\n" ++
  "                               configuration in YAML or JSON format for\n" ++
  "                               the Calico v3 API.\n" ++
  "                               [default: " ++ c.DefaultConfigPathV1 ++ "]\n" ++
  "  --output-dir=<OUTPUTDIR>     Directory in which the data migration reports\n" ++
  "                               are written to.\n" ++
  "                               [default: " ++ c.DefaultOutputDir ++ "]\n" ++
  "\n" ++
  "Description:\n" ++
  "  Validate that the Calico v1 format data can be migrated to Calico v3 format\n" ++
  "  required by Calico v3.0+.\n" ++
  "\n" ++
  "  This command generates the following set of reports (if it contains no data\n" ++
  "  an individual report is not generated).\n" ++
  "\n" ++ c.ReportHelp

/-- The final message of `Validate` when the client loader fails (a format
with one argument, the error). -/
def Validate.msgAccess : String :=
  "Failed to validate v1 to v3 conversion.\n" ++
  "Error accessing the Calico API: %v"

/-- The success message of `Validate` (printed by both decision chains). -/
def Validate.msgOK : String :=
  "Successfully validated v1 to v3 conversion.\n" ++
  "See reports below for details of the conversion."

/-- The failure message of `Validate` that refers to previous messages (printed
by both decision chains). -/
def Validate.msgFailPrevious : String :=
  "Failed to validate v1 to v3 conversion.\n" ++
  "See previous messages for details."

/-- The failure message of the first decision chain of `Validate` on conversion
errors (the source spells it "blow"). -/
def Validate.msgFailReportsFirst : String :=
  "Failed to validate v1 to v3 conversion.\n" ++
  "See reports blow for details of any conversion errors."

/-- The failure message of the second decision chain of `Validate` on conversion
errors. -/
def Validate.msgFailReportsSecond : String :=
  "Failed to validate v1 to v3 conversion.\n" ++
  "See reports below for details on any conversion errors."

/-- The first decision chain of `Validate` (validate.go lines 91-110): the
`if res == migrate.ResultOK ... else ... os.Exit(1)` statement. -/
def Validate.firstChain (output : String) (data : Option migrate.MigrationData)
    (res : migrate.Result) : Cmd Unit :=
  if res = migrate.Result.ResultOK then do
    -- We validated the data successfully.  Include a report.
    printFinalMessage Validate.msgOK []
    printAndOutputReport output data
  else do
    if nilOrNoErrors data then
      printFinalMessage Validate.msgFailPrevious []
    else do
      printFinalMessage Validate.msgFailReportsFirst []
      printAndOutputReport output data
    os.Exit 1

/-- The branch of the second decision chain of `Validate` a pair `(data, res)`
selects, in the order of the source. -/
inductive Validate.Branch where
  | dataNil
  | dataHasErrors
  | resNotOK
  | success
  deriving DecidableEq, Repr

/-- The conditions of the second decision chain of `Validate`, tested in the
order of the source: `data == nil`, `data.HasErrors()`, `res != migrate.ResultOK`. -/
def Validate.secondBranch (data : Option migrate.MigrationData) (res : migrate.Result) :
    Validate.Branch :=
  match data with
  | none => .dataNil
  | some d =>
    if d.HasErrors then .dataHasErrors
    else if res ≠ migrate.Result.ResultOK then .resNotOK
    else .success

/-- The second decision chain of `Validate` (validate.go lines 112-129): the
`if data == nil ... else if data.HasErrors() ... else if res != migrate.ResultOK
... else ...` statement. -/
def Validate.secondChain (output : String) (data : Option migrate.MigrationData)
    (res : migrate.Result) : Cmd Unit :=
  match Validate.secondBranch data res with
  | .dataNil => do
    printFinalMessage Validate.msgFailPrevious []
    os.Exit 1
  | .dataHasErrors => do
    printFinalMessage Validate.msgFailReportsSecond []
    printAndOutputReport output data
    os.Exit 1
  | .resNotOK => do
    printFinalMessage Validate.msgFailPrevious []
    os.Exit 1
  | .success => do
    printFinalMessage Validate.msgOK []
    printAndOutputReport output data

/-- The command `Validate(args)` of validate.go. -/
def Validate (w : Env) (args : List String) : Cmd Unit := do
  let doc := Validate.doc w.constants
  let parsedArgs ← match w.Parse doc args with
    | .error _ => do
      fmt.Printf msgInvalidOption [String.intercalate " " args]
      os.Exit 1
    | .ok m => pure m
  if parsedArgs.length = 0 then
    pure ()
  else do
    let cfv3 ← (parsedArgs.index "--apiconfigv3").assertString
    let cfv1 ← (parsedArgs.index "--apiconfigv1").assertString
    let output ← (parsedArgs.index "--output-dir").assertString
    -- Ensure we are able to write the output report to the designated output directory.
    ensureDirectory output
    -- Obtain the v1 and v3 clients.
    Cmd.emit (Event.LoadClients cfv3 cfv1)
    let (clientv3, clientv1) ← match w.LoadClients cfv3 cfv1 with
      | .error err => do
        printFinalMessage Validate.msgAccess [err]
        os.Exit 1
      | .ok cs => pure cs
    -- Ensure the migration code displays messages.
    Cmd.emit (Event.DisplayStatusMessages true)
    -- Perform the data validation.
    Cmd.emit Event.Validate
    let (data, res) := w.Validate clientv3 clientv1
    Validate.firstChain output data res
    Validate.secondChain output data res

/-- Argument parsing of `Start` has succeeded: docopt returned the map `m`
without error and the four keyed lookups have the asserted types. -/
def Start.Parsed (w : Env) (args : List String) (m : ArgMap) (cfv3 cfv1 : String)
    (ignoreV3Data : Bool) (output : String) : Prop :=
  w.Parse (Start.doc w.constants) args = .ok m ∧
  m.index "--apiconfigv3" = .str cfv3 ∧
  m.index "--apiconfigv1" = .str cfv1 ∧
  m.index "--ignore-v3-data" = .bool ignoreV3Data ∧
  m.index "--output-dir" = .str output

/-- Argument parsing and client loading of `Start` have succeeded. -/
def Start.Ready (w : Env) (args : List String) (m : ArgMap) (cfv3 cfv1 : String)
    (ignoreV3Data : Bool) (output : String) (clientv3 : clients.ClientV3)
    (clientv1 : clients.ClientV1) : Prop :=
  Start.Parsed w args m cfv3 cfv1 ignoreV3Data output ∧
  w.LoadClients cfv3 cfv1 = .ok (clientv3, clientv1)

/-- Argument parsing of `Validate` has succeeded with a non-empty map: docopt
returned the map `m` without error, `len(m) != 0`, and the three keyed lookups
have the asserted types. -/
def Validate.Parsed (w : Env) (args : List String) (m : ArgMap) (cfv3 cfv1 : String)
    (output : String) : Prop :=
  w.Parse (Validate.doc w.constants) args = .ok m ∧
  m.length ≠ 0 ∧
  m.index "--apiconfigv3" = .str cfv3 ∧
  m.index "--apiconfigv1" = .str cfv1 ∧
  m.index "--output-dir" = .str output

/-- Argument parsing and client loading of `Validate` have succeeded. -/
def Validate.Ready (w : Env) (args : List String) (m : ArgMap) (cfv3 cfv1 : String)
    (output : String) (clientv3 : clients.ClientV3) (clientv1 : clients.ClientV1) : Prop :=
  Validate.Parsed w args m cfv3 cfv1 output ∧
  w.LoadClients cfv3 cfv1 = .ok (clientv3, clientv1)

/-- A report is present and has conversion errors: Go `data != nil &&
data.HasErrors()`. -/
def hasConversionErrors (data : Option migrate.MigrationData) : Prop :=
  ∃ d, data = some d ∧ d.HasErrors = true

/-- A report is present and has no conversion errors: Go `data != nil &&
!data.HasErrors()`. -/
def presentWithoutErrors (data : Option migrate.MigrationData) : Prop :=
  ∃ d, data = some d ∧ d.HasErrors = false

/-- The calls `Start` makes after `migrate.Migrate` has returned `(data, res)`. -/
def Start.tailTrace (output : String) (data : Option migrate.MigrationData)
    (res : migrate.Result) : List Event :=
  match res with
  | .ResultOK =>
    [Event.printFinalMessage Start.msgOK [], Event.printAndOutputReport output data]
  | _ =>
    (if nilOrNoErrors data then [Event.printFinalMessage Start.msgFailPrevious []]
      else [Event.printFinalMessage Start.msgFailReports [],
        Event.printAndOutputReport output data]) ++
    (match res with
      | .ResultFailNeedsRetry => [Event.Println Start.hintRetry]
      | .ResultFailNeedsAbort => [Event.Println Start.hintAbort]
      | _ => [])

/-- The calls both commands make between the argument lookups and the decision
on the engine result: directory check, client loading, status toggle, engine. -/
def headTrace (output cfv3 cfv1 : String) (engine : Event) : List Event :=
  [Event.ensureDirectory output, Event.LoadClients cfv3 cfv1,
    Event.DisplayStatusMessages true, engine]

/-! ## Example environments -/

/-- Example constants. -/
def exampleConstants : Constants :=
  { DatastoreIntro := "Set the Calico datastore access information.\n\n"
    DefaultConfigPathV3 := "/etc/calico/apiconfigv3.cfg"
    DefaultConfigPathV1 := "/etc/calico/apiconfigv1.cfg"
    DefaultOutputDir := "/tmp/calico-upgrade"
    ReportHelp := "  convertednames\n"
    Exiting := "Exiting..." }

/-- The map docopt returns for a command line without options: every option
holds its default. -/
def exampleArgs : ArgMap :=
  [("--apiconfigv1", .str "/etc/calico/apiconfigv1.cfg"),
   ("--apiconfigv3", .str "/etc/calico/apiconfigv3.cfg"),
   ("--ignore-v3-data", .bool false),
   ("--output-dir", .str "/tmp/calico-upgrade")]

/-- An example v1 client whose datastore holds no legacy resource. -/
def exampleClientV1 : clients.ClientV1 :=
  { listAllLegacy := .ok [] }

/-- An example v3 client whose datastore holds no modern resource. -/
def exampleClientV3 : clients.ClientV3 :=
  { listAllModern := .ok [] }

/-- An environment in which parsing and client loading succeed and the engine
(both `migrate.Migrate` and `migrate.Validate`) answers `r`. -/
def exampleEnv (r : Option migrate.MigrationData × migrate.Result) : Env :=
  { constants := exampleConstants
    Parse := fun _ _ => .ok exampleArgs
    LoadClients := fun _ _ => .ok (exampleClientV3, exampleClientV1)
    Migrate := fun _ _ _ => r
    Validate := fun _ _ => r }

/-- An environment in which parsing succeeds and the client loader fails. -/
def noAccessEnv : Env :=
  { constants := exampleConstants
    Parse := fun _ _ => .ok exampleArgs
    LoadClients := fun _ _ => .error "connection refused"
    Migrate := fun _ _ _ => (none, .ResultFail)
    Validate := fun _ _ => (none, .ResultFail) }

/-- An environment for the command line `--help`: `docopt.Parse`, called with
`exit` false, prints the usage text and returns an empty map and no error. -/
def helpEnv : Env :=
  { constants := exampleConstants
    Parse := fun _ _ => .ok []
    LoadClients := fun _ _ => .ok (exampleClientV3, exampleClientV1)
    Migrate := fun _ _ _ => (none, .ResultFail)
    Validate := fun _ _ => (none, .ResultFail) }

/-- A report with one converted resource and no error. -/
def cleanReport : migrate.MigrationData :=
  migrate.MigrationData.empty.record "ippool"
    (.Converted { kind := "IPPool", name := "pool-a", scope := "", spec := [] })

/-- A report with one failed resource. -/
def errorReport : migrate.MigrationData :=
  migrate.MigrationData.empty.record "policy" (.Failed "policy" "policy-b" "missing field")

end commands

/-! ## Shared lemmas -/

@[simp] theorem Cmd.bind_eq_seq {α β : Type} (x : Cmd α) (f : α → Cmd β) :
    x >>= f = Cmd.seq x f := rfl

@[simp] theorem Cmd.pure_eq_ret {α : Type} (a : α) : (pure a : Cmd α) = Cmd.ret a := rfl

namespace commands

/-- The whole run of `Start` once argument parsing and client loading have
succeeded and `migrate.Migrate` has returned `(data, res)`. -/
theorem Start_run (w : Env) (args : List String) (m : ArgMap) (cfv3 cfv1 : String)
    (ignoreV3Data : Bool) (output : String) (clientv3 : clients.ClientV3)
    (clientv1 : clients.ClientV1) (data : Option migrate.MigrationData) (res : migrate.Result)
    (hready : Start.Ready w args m cfv3 cfv1 ignoreV3Data output clientv3 clientv1)
    (hm : w.Migrate clientv3 clientv1 ignoreV3Data = (data, res)) :
    Start w args =
      { trace := headTrace output cfv3 cfv1 (Event.Migrate ignoreV3Data) ++
          Start.tailTrace output data res
        result := if res = migrate.Result.ResultOK then .ok () else .error (Halt.Exit 1) } := by
  obtain ⟨⟨hp, h1, h2, h3, h4⟩, hl⟩ := hready
  cases res <;> cases hn : nilOrNoErrors data <;>
    simp [Start, hp, h1, h2, h3, h4, hl, hm, hn, Value.assertString, Value.assertBool, Cmd.seq,
      Cmd.ret, Cmd.emit, ensureDirectory, printFinalMessage, printAndOutputReport, fmt.Println,
      os.Exit, Start.tailTrace, headTrace]

/-- The whole run of `Start` when argument parsing has succeeded and the client
loader returns an error. -/
theorem Start_run_noAccess (w : Env) (args : List String) (m : ArgMap) (cfv3 cfv1 : String)
    (ignoreV3Data : Bool) (output : String) (err : String)
    (hparsed : Start.Parsed w args m cfv3 cfv1 ignoreV3Data output)
    (hl : w.LoadClients cfv3 cfv1 = .error err) :
    Start w args =
      { trace := [Event.ensureDirectory output, Event.LoadClients cfv3 cfv1,
          Event.Printf "Failed to access the Calico API: %s\n" [err],
          Event.Println w.constants.Exiting]
        result := .error (Halt.Exit 1) } := by
  obtain ⟨hp, h1, h2, h3, h4⟩ := hparsed
  simp [Start, hp, h1, h2, h3, h4, hl, Value.assertString, Value.assertBool, Cmd.seq,
    Cmd.ret, Cmd.emit, ensureDirectory, fmt.Println, fmt.Printf, os.Exit]

/-- The run of the first decision chain of `Validate`. -/
theorem Validate_firstChain_run (output : String) (data : Option migrate.MigrationData)
    (res : migrate.Result) :
    Validate.firstChain output data res =
      { trace :=
          if res = migrate.Result.ResultOK then
            [Event.printFinalMessage Validate.msgOK [], Event.printAndOutputReport output data]
          else if nilOrNoErrors data then [Event.printFinalMessage Validate.msgFailPrevious []]
          else [Event.printFinalMessage Validate.msgFailReportsFirst [],
            Event.printAndOutputReport output data]
        result := if res = migrate.Result.ResultOK then .ok () else .error (Halt.Exit 1) } := by
  cases res <;> cases hn : nilOrNoErrors data <;>
    simp [Validate.firstChain, hn, Cmd.seq, Cmd.emit, printFinalMessage, printAndOutputReport,
      os.Exit]

/-- The run of the second decision chain of `Validate`, by the branch taken. -/
theorem Validate_secondChain_run (output : String) (data : Option migrate.MigrationData)
    (res : migrate.Result) :
    Validate.secondChain output data res =
      { trace :=
          match Validate.secondBranch data res with
          | .dataNil => [Event.printFinalMessage Validate.msgFailPrevious []]
          | .dataHasErrors => [Event.printFinalMessage Validate.msgFailReportsSecond [],
              Event.printAndOutputReport output data]
          | .resNotOK => [Event.printFinalMessage Validate.msgFailPrevious []]
          | .success => [Event.printFinalMessage Validate.msgOK [],
              Event.printAndOutputReport output data]
        result :=
          if Validate.secondBranch data res = .success then .ok () else .error (Halt.Exit 1) } := by
  cases hb : Validate.secondBranch data res <;>
    simp [Validate.secondChain, hb, Cmd.seq, Cmd.emit, printFinalMessage, printAndOutputReport,
      os.Exit]

/-- The whole run of `Validate` once argument parsing and client loading have
succeeded and `migrate.Validate` has returned `(data, res)`: the first chain,
and the second chain when the first one returns. -/
theorem Validate_run (w : Env) (args : List String) (m : ArgMap) (cfv3 cfv1 : String)
    (output : String) (clientv3 : clients.ClientV3)
    (clientv1 : clients.ClientV1) (data : Option migrate.MigrationData) (res : migrate.Result)
    (hready : Validate.Ready w args m cfv3 cfv1 output clientv3 clientv1)
    (hv : w.Validate clientv3 clientv1 = (data, res)) :
    Validate w args =
      { trace := headTrace output cfv3 cfv1 Event.Validate ++
          (Validate.firstChain output data res).trace ++
          (if res = migrate.Result.ResultOK then (Validate.secondChain output data res).trace
            else [])
        result :=
          if res = migrate.Result.ResultOK then (Validate.secondChain output data res).result
          else .error (Halt.Exit 1) } := by
  obtain ⟨⟨hp, hlen, h1, h2, h4⟩, hl⟩ := hready
  have hlen2 : m ≠ [] := fun h => hlen (by simp [h])
  rw [Validate_firstChain_run]
  cases res <;>
    simp [Validate, hp, hlen2, h1, h2, h4, hl, hv, Value.assertString, Cmd.seq,
      Cmd.ret, Cmd.emit, ensureDirectory, headTrace, Validate_firstChain_run]

/-- The whole run of `Validate` when argument parsing has succeeded with a
non-empty map and the client loader returns an error. -/
theorem Validate_run_noAccess (w : Env) (args : List String) (m : ArgMap) (cfv3 cfv1 : String)
    (output : String) (err : String)
    (hparsed : Validate.Parsed w args m cfv3 cfv1 output)
    (hl : w.LoadClients cfv3 cfv1 = .error err) :
    Validate w args =
      { trace := [Event.ensureDirectory output, Event.LoadClients cfv3 cfv1,
          Event.printFinalMessage Validate.msgAccess [err]]
        result := .error (Halt.Exit 1) } := by
  obtain ⟨hp, hlen, h1, h2, h4⟩ := hparsed
  have hlen2 : m ≠ [] := fun h => hlen (by simp [h])
  simp [Validate, hp, hlen2, h1, h2, h4, hl, Value.assertString, Cmd.seq,
    Cmd.ret, Cmd.emit, ensureDirectory, printFinalMessage, os.Exit]

theorem nilOrNoErrors_eq_false_iff (data : Option migrate.MigrationData) :
    nilOrNoErrors data = false ↔ hasConversionErrors data := by
  cases data with
  | none => simp [nilOrNoErrors, hasConversionErrors]
  | some d => simp [nilOrNoErrors, hasConversionErrors]

theorem hintRetry_ne_hintAbort : Start.hintRetry ≠ Start.hintAbort := by
  decide

/-- The engine contract of the spec-modelled `migrate.Validate`: `ResultOK`
always comes with a report that is present and has no errors. -/
theorem migrate_Validate_OK_clean (convert : migrate.LegacyResource → migrate.ConversionOutcome)
    (clientv3 : clients.ClientV3) (clientv1 : clients.ClientV1)
    (data : Option migrate.MigrationData)
    (h : migrate.Validate convert clientv3 clientv1 = (data, migrate.Result.ResultOK)) :
    presentWithoutErrors data := by
  unfold migrate.Validate at h
  cases hl : clientv1.listAllLegacy with
  | error e => simp [hl] at h
  | ok legacy =>
    cases hh : (legacy.foldl (fun d r => d.record r.kind (convert r))
        migrate.MigrationData.empty).HasErrors
    · simp [hl, hh] at h
      exact ⟨_, h.symm, hh⟩
    · simp [hl, hh] at h

/-! ## The claims -/

/-- C1: in `Start`, once argument parsing and client loading have succeeded,
for every `(data, res)` returned by `migrate.Migrate`, the command ends with
`os.Exit(1)` if and only if `res` is not `ResultOK`; and when `res` is
`ResultOK` it returns normally, its only final message is the "Successfully
migrated" one, it outputs the report for `data` exactly once, and it prints no
line with `fmt.Println` (so no retry or abort hint). -/
theorem C1_Start_exits_iff_not_OK (w : Env) (args : List String) (m : ArgMap)
    (cfv3 cfv1 : String) (ignoreV3Data : Bool) (output : String)
    (clientv3 : clients.ClientV3) (clientv1 : clients.ClientV1)
    (data : Option migrate.MigrationData) (res : migrate.Result)
    (hready : Start.Ready w args m cfv3 cfv1 ignoreV3Data output clientv3 clientv1)
    (hm : w.Migrate clientv3 clientv1 ignoreV3Data = (data, res)) :
    ((Start w args).result = .error (Halt.Exit 1) ↔ res ≠ migrate.Result.ResultOK) ∧
    (res = migrate.Result.ResultOK →
      (Start w args).result = .ok () ∧
      finalMessages (Start w args).trace = [(Start.msgOK, [])] ∧
      reportsOutput (Start w args).trace = [(output, data)] ∧
      ∀ line, Event.Println line ∉ (Start w args).trace) := by
  rw [Start_run w args m cfv3 cfv1 ignoreV3Data output clientv3 clientv1 data res hready hm]
  refine ⟨?_, ?_⟩
  · cases res <;> simp
  · intro hres
    subst hres
    simp [Start.tailTrace, headTrace, finalMessages, reportsOutput]

/-- Witness of C1: a successful migration with a clean report. -/
theorem C1_Start_exits_iff_not_OK_witness :
    Start.Ready (exampleEnv (some cleanReport, .ResultOK)) [] exampleArgs
      "/etc/calico/apiconfigv3.cfg" "/etc/calico/apiconfigv1.cfg" false "/tmp/calico-upgrade"
      exampleClientV3 exampleClientV1 ∧
    ((Start (exampleEnv (some cleanReport, .ResultOK)) []).result = .error (Halt.Exit 1) ↔
      migrate.Result.ResultOK ≠ migrate.Result.ResultOK) ∧
    (migrate.Result.ResultOK = migrate.Result.ResultOK →
      (Start (exampleEnv (some cleanReport, .ResultOK)) []).result = .ok () ∧
      finalMessages (Start (exampleEnv (some cleanReport, .ResultOK)) []).trace =
        [(Start.msgOK, [])] ∧
      reportsOutput (Start (exampleEnv (some cleanReport, .ResultOK)) []).trace =
        [("/tmp/calico-upgrade", some cleanReport)] ∧
      ∀ line, Event.Println line ∉ (Start (exampleEnv (some cleanReport, .ResultOK)) []).trace) :=
  ⟨⟨⟨rfl, rfl, rfl, rfl, rfl⟩, rfl⟩,
    C1_Start_exits_iff_not_OK (exampleEnv (some cleanReport, .ResultOK)) [] exampleArgs
      "/etc/calico/apiconfigv3.cfg" "/etc/calico/apiconfigv1.cfg" false "/tmp/calico-upgrade"
      exampleClientV3 exampleClientV1 (some cleanReport) .ResultOK
      ⟨⟨rfl, rfl, rfl, rfl, rfl⟩, rfl⟩ rfl⟩

/-- C2: in `Start`, once argument parsing and client loading have succeeded,
for every `(data, res)` returned by `migrate.Migrate`, the "Please retry the
command." hint is printed if and only if `res` is `ResultFailNeedsRetry`, the
"Please run the calico-upgrade abort command" hint is printed if and only if
`res` is `ResultFailNeedsAbort` (whatever the report contains), the two hints
are never both printed, and neither is printed for `ResultOK` or `ResultFail`. -/
theorem C2_Start_hints (w : Env) (args : List String) (m : ArgMap)
    (cfv3 cfv1 : String) (ignoreV3Data : Bool) (output : String)
    (clientv3 : clients.ClientV3) (clientv1 : clients.ClientV1)
    (data : Option migrate.MigrationData) (res : migrate.Result)
    (hready : Start.Ready w args m cfv3 cfv1 ignoreV3Data output clientv3 clientv1)
    (hm : w.Migrate clientv3 clientv1 ignoreV3Data = (data, res)) :
    (Event.Println Start.hintRetry ∈ (Start w args).trace ↔
      res = migrate.Result.ResultFailNeedsRetry) ∧
    (Event.Println Start.hintAbort ∈ (Start w args).trace ↔
      res = migrate.Result.ResultFailNeedsAbort) ∧
    ¬ (Event.Println Start.hintRetry ∈ (Start w args).trace ∧
      Event.Println Start.hintAbort ∈ (Start w args).trace) ∧
    (res = migrate.Result.ResultOK ∨ res = migrate.Result.ResultFail →
      Event.Println Start.hintRetry ∉ (Start w args).trace ∧
      Event.Println Start.hintAbort ∉ (Start w args).trace) := by
  rw [Start_run w args m cfv3 cfv1 ignoreV3Data output clientv3 clientv1 data res hready hm]
  have hne := hintRetry_ne_hintAbort
  cases res <;> cases hn : nilOrNoErrors data <;>
    simp [Start.tailTrace, headTrace, hn, hne, hne.symm]

/-- Witness of C2: a run that needs an abort, with a report holding an error. -/
theorem C2_Start_hints_witness :
    Start.Ready (exampleEnv (some errorReport, .ResultFailNeedsAbort)) [] exampleArgs
      "/etc/calico/apiconfigv3.cfg" "/etc/calico/apiconfigv1.cfg" false "/tmp/calico-upgrade"
      exampleClientV3 exampleClientV1 ∧
    Event.Println Start.hintAbort ∈
      (Start (exampleEnv (some errorReport, .ResultFailNeedsAbort)) []).trace ∧
    Event.Println Start.hintRetry ∉
      (Start (exampleEnv (some errorReport, .ResultFailNeedsAbort)) []).trace :=
  have h := C2_Start_hints (exampleEnv (some errorReport, .ResultFailNeedsAbort)) [] exampleArgs
      "/etc/calico/apiconfigv3.cfg" "/etc/calico/apiconfigv1.cfg" false "/tmp/calico-upgrade"
      exampleClientV3 exampleClientV1 (some errorReport) .ResultFailNeedsAbort
      ⟨⟨rfl, rfl, rfl, rfl, rfl⟩, rfl⟩ rfl
  ⟨⟨⟨rfl, rfl, rfl, rfl, rfl⟩, rfl⟩, h.2.1.2 rfl, fun hr => h.2.2.1 ⟨hr, h.2.1.2 rfl⟩⟩

/-- C3: in `Start`, once argument parsing and client loading have succeeded,
for every failing run (`res` is not `ResultOK`), the report is output if and
only if `data` is present and `data.HasErrors()` is true; in that case it is
output once and the final message refers to the reports; otherwise no report is
output and the final message is "See previous messages for details." -/
theorem C3_Start_failure_report (w : Env) (args : List String) (m : ArgMap)
    (cfv3 cfv1 : String) (ignoreV3Data : Bool) (output : String)
    (clientv3 : clients.ClientV3) (clientv1 : clients.ClientV1)
    (data : Option migrate.MigrationData) (res : migrate.Result)
    (hready : Start.Ready w args m cfv3 cfv1 ignoreV3Data output clientv3 clientv1)
    (hm : w.Migrate clientv3 clientv1 ignoreV3Data = (data, res))
    (hres : res ≠ migrate.Result.ResultOK) :
    (reportsOutput (Start w args).trace ≠ [] ↔ hasConversionErrors data) ∧
    (hasConversionErrors data →
      reportsOutput (Start w args).trace = [(output, data)] ∧
      finalMessages (Start w args).trace = [(Start.msgFailReports, [])]) ∧
    (¬ hasConversionErrors data →
      reportsOutput (Start w args).trace = [] ∧
      finalMessages (Start w args).trace = [(Start.msgFailPrevious, [])]) := by
  rw [Start_run w args m cfv3 cfv1 ignoreV3Data output clientv3 clientv1 data res hready hm]
  rw [← nilOrNoErrors_eq_false_iff]
  cases res <;> cases hn : nilOrNoErrors data <;>
    simp [Start.tailTrace, headTrace, finalMessages, reportsOutput, hn] at hres ⊢

/-- Witness of C3: a plain failure with a report holding an error. -/
theorem C3_Start_failure_report_witness :
    Start.Ready (exampleEnv (some errorReport, .ResultFail)) [] exampleArgs
      "/etc/calico/apiconfigv3.cfg" "/etc/calico/apiconfigv1.cfg" false "/tmp/calico-upgrade"
      exampleClientV3 exampleClientV1 ∧
    migrate.Result.ResultFail ≠ migrate.Result.ResultOK ∧
    hasConversionErrors (some errorReport) ∧
    reportsOutput (Start (exampleEnv (some errorReport, .ResultFail)) []).trace =
      [("/tmp/calico-upgrade", some errorReport)] ∧
    finalMessages (Start (exampleEnv (some errorReport, .ResultFail)) []).trace =
      [(Start.msgFailReports, [])] :=
  have hc : hasConversionErrors (some errorReport) := ⟨errorReport, rfl, rfl⟩
  ⟨⟨⟨rfl, rfl, rfl, rfl, rfl⟩, rfl⟩, by decide, hc,
    (C3_Start_failure_report (exampleEnv (some errorReport, .ResultFail)) [] exampleArgs
      "/etc/calico/apiconfigv3.cfg" "/etc/calico/apiconfigv1.cfg" false "/tmp/calico-upgrade"
      exampleClientV3 exampleClientV1 (some errorReport) .ResultFail
      ⟨⟨rfl, rfl, rfl, rfl, rfl⟩, rfl⟩ rfl (by decide)).2.1 hc⟩

/-- C4 fails on the code: when `migrate.Validate` returns `ResultOK` with an
absent report, `Validate` prints the success message (first chain) and then
falls into the leftover second decision chain, which prints "Failed to
validate" and ends with `os.Exit(1)`; the same happens with `ResultOK` and a
report whose `HasErrors()` is true.  The sibling command `Start` returns
normally on the same pairs. -/
theorem C4_Validate_OK_exits_with_failure :
    Validate.Ready (exampleEnv (none, .ResultOK)) [] exampleArgs
      "/etc/calico/apiconfigv3.cfg" "/etc/calico/apiconfigv1.cfg" "/tmp/calico-upgrade"
      exampleClientV3 exampleClientV1 ∧
    (exampleEnv (none, .ResultOK)).Validate exampleClientV3 exampleClientV1 =
      (none, .ResultOK) ∧
    (Validate (exampleEnv (none, .ResultOK)) []).result = .error (Halt.Exit 1) ∧
    finalMessages (Validate (exampleEnv (none, .ResultOK)) []).trace =
      [(Validate.msgOK, []), (Validate.msgFailPrevious, [])] ∧
    errorReport.HasErrors = true ∧
    (Validate (exampleEnv (some errorReport, .ResultOK)) []).result = .error (Halt.Exit 1) ∧
    finalMessages (Validate (exampleEnv (some errorReport, .ResultOK)) []).trace =
      [(Validate.msgOK, []), (Validate.msgFailReportsSecond, [])] ∧
    (Start (exampleEnv (none, .ResultOK)) []).result = .ok () ∧
    (Start (exampleEnv (some errorReport, .ResultOK)) []).result = .ok () :=
  ⟨⟨⟨rfl, by decide, rfl, rfl, rfl⟩, rfl⟩, rfl, rfl, rfl, rfl, rfl, rfl, rfl, rfl⟩

/-- C5: in `Validate`, once argument parsing and client loading have succeeded,
for every `(data, res)` returned by `migrate.Validate` with `res` not
`ResultOK` (`ResultFail`, `ResultFailNeedsRetry` and `ResultFailNeedsAbort`
alike), the command ends with `os.Exit(1)`; it outputs the report (once) if and
only if `data` is present and `data.HasErrors()` is true, and otherwise its
final message is "See previous messages for details."; and it prints nothing
with `fmt.Println` or `fmt.Printf` (so no retry or abort hint). -/
theorem C5_Validate_failure (w : Env) (args : List String) (m : ArgMap)
    (cfv3 cfv1 : String) (output : String)
    (clientv3 : clients.ClientV3) (clientv1 : clients.ClientV1)
    (data : Option migrate.MigrationData) (res : migrate.Result)
    (hready : Validate.Ready w args m cfv3 cfv1 output clientv3 clientv1)
    (hv : w.Validate clientv3 clientv1 = (data, res))
    (hres : res ≠ migrate.Result.ResultOK) :
    (Validate w args).result = .error (Halt.Exit 1) ∧
    (reportsOutput (Validate w args).trace ≠ [] ↔ hasConversionErrors data) ∧
    (hasConversionErrors data →
      reportsOutput (Validate w args).trace = [(output, data)] ∧
      finalMessages (Validate w args).trace = [(Validate.msgFailReportsFirst, [])]) ∧
    (¬ hasConversionErrors data →
      reportsOutput (Validate w args).trace = [] ∧
      finalMessages (Validate w args).trace = [(Validate.msgFailPrevious, [])]) ∧
    (∀ line, Event.Println line ∉ (Validate w args).trace) ∧
    (∀ format a, Event.Printf format a ∉ (Validate w args).trace) := by
  rw [Validate_run w args m cfv3 cfv1 output clientv3 clientv1 data res hready hv,
    Validate_firstChain_run]
  rw [← nilOrNoErrors_eq_false_iff]
  cases res <;> cases hn : nilOrNoErrors data <;>
    simp [headTrace, finalMessages, reportsOutput, hn] at hres ⊢

/-- Witness of C5: a validation that (against the engine contract) answers
`ResultFailNeedsAbort` with a report holding an error. -/
theorem C5_Validate_failure_witness :
    Validate.Ready (exampleEnv (some errorReport, .ResultFailNeedsAbort)) [] exampleArgs
      "/etc/calico/apiconfigv3.cfg" "/etc/calico/apiconfigv1.cfg" "/tmp/calico-upgrade"
      exampleClientV3 exampleClientV1 ∧
    migrate.Result.ResultFailNeedsAbort ≠ migrate.Result.ResultOK ∧
    (Validate (exampleEnv (some errorReport, .ResultFailNeedsAbort)) []).result =
      .error (Halt.Exit 1) ∧
    ∀ line, Event.Println line ∉
      (Validate (exampleEnv (some errorReport, .ResultFailNeedsAbort)) []).trace :=
  have h := C5_Validate_failure (exampleEnv (some errorReport, .ResultFailNeedsAbort)) []
      exampleArgs "/etc/calico/apiconfigv3.cfg" "/etc/calico/apiconfigv1.cfg"
      "/tmp/calico-upgrade" exampleClientV3 exampleClientV1 (some errorReport)
      .ResultFailNeedsAbort ⟨⟨rfl, by decide, rfl, rfl, rfl⟩, rfl⟩ rfl (by decide)
  ⟨⟨⟨rfl, by decide, rfl, rfl, rfl⟩, rfl⟩, by decide, h.1, h.2.2.2.2.1⟩

/-- C6: in both `Start` and `Validate`, when argument parsing has succeeded and
`clients.LoadClients` returns an error, the command prints an API-access
failure message carrying the error and ends with `os.Exit(1)`; the client
loader was called once (no retry), neither `migrate.DisplayStatusMessages` nor
`migrate.Migrate` / `migrate.Validate` is called, and no report is output. -/
theorem C6_LoadClients_error (ws : Env) (argsS : List String) (mS : ArgMap)
    (cfv3S cfv1S : String) (ignoreV3Data : Bool) (outputS : String) (errS : String)
    (wv : Env) (argsV : List String) (mV : ArgMap)
    (cfv3V cfv1V : String) (outputV : String) (errV : String)
    (hs : Start.Parsed ws argsS mS cfv3S cfv1S ignoreV3Data outputS)
    (hls : ws.LoadClients cfv3S cfv1S = .error errS)
    (hvp : Validate.Parsed wv argsV mV cfv3V cfv1V outputV)
    (hlv : wv.LoadClients cfv3V cfv1V = .error errV) :
    ((Start ws argsS).result = .error (Halt.Exit 1) ∧
      Event.Printf "Failed to access the Calico API: %s\n" [errS] ∈ (Start ws argsS).trace ∧
      loadClientsCalls (Start ws argsS).trace = [(cfv3S, cfv1S)] ∧
      (∀ b, Event.DisplayStatusMessages b ∉ (Start ws argsS).trace) ∧
      (∀ b, Event.Migrate b ∉ (Start ws argsS).trace) ∧
      Event.Validate ∉ (Start ws argsS).trace ∧
      reportsOutput (Start ws argsS).trace = []) ∧
    ((Validate wv argsV).result = .error (Halt.Exit 1) ∧
      Event.printFinalMessage Validate.msgAccess [errV] ∈ (Validate wv argsV).trace ∧
      loadClientsCalls (Validate wv argsV).trace = [(cfv3V, cfv1V)] ∧
      (∀ b, Event.DisplayStatusMessages b ∉ (Validate wv argsV).trace) ∧
      (∀ b, Event.Migrate b ∉ (Validate wv argsV).trace) ∧
      Event.Validate ∉ (Validate wv argsV).trace ∧
      reportsOutput (Validate wv argsV).trace = []) := by
  rw [Start_run_noAccess ws argsS mS cfv3S cfv1S ignoreV3Data outputS errS hs hls,
    Validate_run_noAccess wv argsV mV cfv3V cfv1V outputV errV hvp hlv]
  simp [loadClientsCalls, reportsOutput]

/-- Witness of C6: both commands against a client loader that fails. -/
theorem C6_LoadClients_error_witness :
    Start.Parsed noAccessEnv [] exampleArgs "/etc/calico/apiconfigv3.cfg"
      "/etc/calico/apiconfigv1.cfg" false "/tmp/calico-upgrade" ∧
    Validate.Parsed noAccessEnv [] exampleArgs "/etc/calico/apiconfigv3.cfg"
      "/etc/calico/apiconfigv1.cfg" "/tmp/calico-upgrade" ∧
    noAccessEnv.LoadClients "/etc/calico/apiconfigv3.cfg" "/etc/calico/apiconfigv1.cfg" =
      .error "connection refused" ∧
    (Start noAccessEnv []).result = .error (Halt.Exit 1) ∧
    (Validate noAccessEnv []).result = .error (Halt.Exit 1) :=
  have h := C6_LoadClients_error noAccessEnv [] exampleArgs "/etc/calico/apiconfigv3.cfg"
      "/etc/calico/apiconfigv1.cfg" false "/tmp/calico-upgrade" "connection refused"
      noAccessEnv [] exampleArgs "/etc/calico/apiconfigv3.cfg"
      "/etc/calico/apiconfigv1.cfg" "/tmp/calico-upgrade" "connection refused"
      ⟨rfl, rfl, rfl, rfl, rfl⟩ rfl ⟨rfl, by decide, rfl, rfl, rfl⟩ rfl
  ⟨⟨rfl, rfl, rfl, rfl, rfl⟩, ⟨rfl, by decide, rfl, rfl, rfl⟩, rfl, h.1.1, h.2.1⟩

/-- C7: the result code of `migrate.Validate` (as modelled from the spec) is
`ResultOK` or `ResultFail`, never `ResultFailNeedsRetry` or
`ResultFailNeedsAbort`, for every converter, every pair of clients and every
datastore content; and a `ResultFail` comes without a report for some
datastore (listing fails) and with a report for another (a failed
conversion). -/
theorem C7_migrate_Validate_OK_or_Fail :
    (∀ (convert : migrate.LegacyResource → migrate.ConversionOutcome)
        (clientv3 : clients.ClientV3) (clientv1 : clients.ClientV1),
      ((migrate.Validate convert clientv3 clientv1).2 = migrate.Result.ResultOK ∨
        (migrate.Validate convert clientv3 clientv1).2 = migrate.Result.ResultFail) ∧
      (migrate.Validate convert clientv3 clientv1).2 ≠ migrate.Result.ResultFailNeedsRetry ∧
      (migrate.Validate convert clientv3 clientv1).2 ≠ migrate.Result.ResultFailNeedsAbort) ∧
    migrate.Validate (fun r => .Failed r.kind r.name "missing field") exampleClientV3
      { listAllLegacy := .error "datastore unreachable" } = (none, .ResultFail) ∧
    migrate.Validate (fun r => .Failed r.kind r.name "missing field") exampleClientV3
      { listAllLegacy := .ok [{ kind := "policy", name := "policy-b", fields := [] }] } =
      (some errorReport, .ResultFail) := by
  refine ⟨?_, rfl, rfl⟩
  intro convert clientv3 clientv1
  unfold migrate.Validate
  cases clientv1.listAllLegacy with
  | error e => simp
  | ok legacy =>
    cases hh : (legacy.foldl (fun d r => d.record r.kind (convert r))
        migrate.MigrationData.empty).HasErrors <;> simp [hh]

/-- C8 fails on the code: on the ordinary success of a validation (`ResultOK`
with a clean report) `Validate` runs both decision chains, so it prints the
final message twice and outputs the report twice. -/
theorem C8_Validate_prints_twice :
    cleanReport.HasErrors = false ∧
    (Validate (exampleEnv (some cleanReport, .ResultOK)) []).result = .ok () ∧
    finalMessages (Validate (exampleEnv (some cleanReport, .ResultOK)) []).trace =
      [(Validate.msgOK, []), (Validate.msgOK, [])] ∧
    reportsOutput (Validate (exampleEnv (some cleanReport, .ResultOK)) []).trace =
      [("/tmp/calico-upgrade", some cleanReport), ("/tmp/calico-upgrade", some cleanReport)] ∧
    finalMessages (Start (exampleEnv (some cleanReport, .ResultOK)) []).trace =
      [(Start.msgOK, [])] ∧
    reportsOutput (Start (exampleEnv (some cleanReport, .ResultOK)) []).trace =
      [("/tmp/calico-upgrade", some cleanReport)] :=
  ⟨rfl, rfl, rfl, rfl, rfl, rfl⟩

/-- C9 fails on the code: when docopt returns an empty map and no error (the
command line `--help`), `Validate` returns at once, while `Start` has no such
guard: its first lookup reads the nil interface and the type assertion to
`string` panics before any other call is made. -/
theorem C9_Start_panics_on_empty_map :
    helpEnv.Parse (Start.doc helpEnv.constants) ["--help"] = .ok [] ∧
    ArgMap.index [] "--apiconfigv3" = Value.nil ∧
    Start helpEnv ["--help"] = { trace := [], result := .error Halt.Panic } ∧
    Validate helpEnv ["--help"] = { trace := [], result := .ok () } :=
  ⟨rfl, rfl, rfl, rfl⟩

/-- C10: in `Validate`, once argument parsing and client loading have
succeeded, control passes the first decision chain if and only if `res` is
`ResultOK`; when `res` is not `ResultOK` the run is the first chain followed by
`os.Exit(1)` and the second chain is never entered; when `res` is `ResultOK`
the second chain does not take its `res != migrate.ResultOK` branch, the branch
it takes is a function of `data` alone, and the run is the first chain followed
by the second chain evaluated at `ResultOK`. -/
theorem C10_Validate_second_chain (w : Env) (args : List String) (m : ArgMap)
    (cfv3 cfv1 : String) (output : String)
    (clientv3 : clients.ClientV3) (clientv1 : clients.ClientV1)
    (data : Option migrate.MigrationData) (res : migrate.Result)
    (hready : Validate.Ready w args m cfv3 cfv1 output clientv3 clientv1)
    (hv : w.Validate clientv3 clientv1 = (data, res)) :
    ((Validate.firstChain output data res).result = .ok () ↔
      res = migrate.Result.ResultOK) ∧
    (res ≠ migrate.Result.ResultOK →
      Validate w args =
        { trace := headTrace output cfv3 cfv1 Event.Validate ++
            (Validate.firstChain output data res).trace
          result := .error (Halt.Exit 1) }) ∧
    (res = migrate.Result.ResultOK →
      Validate.secondBranch data res ≠ Validate.Branch.resNotOK ∧
      Validate.secondBranch data res =
        (match data with
          | none => Validate.Branch.dataNil
          | some d =>
            if d.HasErrors then Validate.Branch.dataHasErrors else Validate.Branch.success) ∧
      Validate w args =
        { trace := headTrace output cfv3 cfv1 Event.Validate ++
            (Validate.firstChain output data res).trace ++
            (Validate.secondChain output data migrate.Result.ResultOK).trace
          result := (Validate.secondChain output data migrate.Result.ResultOK).result }) := by
  rw [Validate_run w args m cfv3 cfv1 output clientv3 clientv1 data res hready hv,
    Validate_firstChain_run]
  refine ⟨?_, ?_, ?_⟩
  · cases res <;> simp
  · intro hres
    simp [hres]
  · intro hres
    subst hres
    cases data with
    | none => simp [Validate.secondBranch]
    | some d => cases hh : d.HasErrors <;> simp [Validate.secondBranch, hh]

/-- Witness of C10: a failed validation never enters the second chain. -/
theorem C10_Validate_second_chain_witness :
    Validate.Ready (exampleEnv (some errorReport, .ResultFail)) [] exampleArgs
      "/etc/calico/apiconfigv3.cfg" "/etc/calico/apiconfigv1.cfg" "/tmp/calico-upgrade"
      exampleClientV3 exampleClientV1 ∧
    ¬ ((Validate.firstChain "/tmp/calico-upgrade" (some errorReport)
      migrate.Result.ResultFail).result = .ok ()) ∧
    Validate (exampleEnv (some errorReport, .ResultFail)) [] =
      { trace := headTrace "/tmp/calico-upgrade" "/etc/calico/apiconfigv3.cfg"
          "/etc/calico/apiconfigv1.cfg" Event.Validate ++
          (Validate.firstChain "/tmp/calico-upgrade" (some errorReport)
            migrate.Result.ResultFail).trace
        result := .error (Halt.Exit 1) } :=
  have h := C10_Validate_second_chain (exampleEnv (some errorReport, .ResultFail)) []
      exampleArgs "/etc/calico/apiconfigv3.cfg" "/etc/calico/apiconfigv1.cfg"
      "/tmp/calico-upgrade" exampleClientV3 exampleClientV1 (some errorReport)
      .ResultFail ⟨⟨rfl, by decide, rfl, rfl, rfl⟩, rfl⟩ rfl
  ⟨⟨⟨rfl, by decide, rfl, rfl, rfl⟩, rfl⟩, fun hok => absurd (h.1.1 hok) (by decide),
    h.2.1 (by decide)⟩

end commands
